import Mathlib

/-!
Verification development for the OpenQuery Tauri backend
(`apps/desktop/src-tauri/src/{bridge.rs, keychain.rs, main.rs}`).

The bridge drives a child Node.js process over line-delimited JSON-RPC.
We embed the pure decision logic of the Rust code: JSON values model
`serde_json::Value`; the I/O boundary (the parse function of `serde_json`,
the filesystem-existence test, the keyring library results, and the lines
read from or written to the child's pipes) is passed in explicitly, so the
embedded functions are exactly the Rust control flow over those inputs.
-/

/-- JSON values, modelling `serde_json::Value`. Numbers are modelled as
integers at this layer (the bridge never inspects numeric payloads). -/
inductive Json where
  | null
  | bool (b : Bool)
  | num (n : Int)
  | str (s : String)
  | arr (elems : List Json)
  | obj (fields : List (String × Json))

namespace Json

/-- `Value::get(key)`: field lookup on an object, `None` on any other value. -/
def get : Json → String → Option Json
  | obj fields, key => fields.lookup key
  | _, _ => none

/-- `Value::as_str()`: the string content when the value is a string. -/
def as_str : Json → Option String
  | str s => some s
  | _ => none

/-- One character of `serde_json`'s compact string escaping:
`"` and `\` are backslash-escaped, the short control escapes are used when
available, other control characters become `\u00XX` (lowercase hex), and
everything else passes through unchanged. -/
def escapeChar (c : Char) : String :=
  if c = '"' then "\\\""
  else if c = '\\' then "\\\\"
  else if c = '\x08' then "\\b"
  else if c = '\x09' then "\\t"
  else if c = '\x0a' then "\\n"
  else if c = '\x0c' then "\\f"
  else if c = '\x0d' then "\\r"
  else if c.toNat < 0x20 then
    "\\u00" ++ String.mk [Nat.digitChar (c.toNat / 16), Nat.digitChar (c.toNat % 16)]
  else String.singleton c

/-- `serde_json`'s escaping applied to a whole string (without the quotes). -/
def escapeString (s : String) : String :=
  s.data.foldr (fun c acc => escapeChar c ++ acc) ""

mutual

/-- `serde_json::to_string`: the compact (no whitespace) serialization. -/
def serialize : Json → String
  | null => "null"
  | bool true => "true"
  | bool false => "false"
  | num n => Int.repr n
  | str s => "\"" ++ escapeString s ++ "\""
  | arr elems => "[" ++ serializeArr elems ++ "]"
  | obj fields => "\x7b" ++ serializeObj fields ++ "\x7d"

/-- Comma-separated serialization of array elements. -/
def serializeArr : List Json → String
  | [] => ""
  | [v] => serialize v
  | v :: vs => serialize v ++ "," ++ serializeArr vs

/-- Comma-separated serialization of object fields. -/
def serializeObj : List (String × Json) → String
  | [] => ""
  | [(k, v)] => "\"" ++ escapeString k ++ "\":" ++ serialize v
  | (k, v) :: fs => "\"" ++ escapeString k ++ "\":" ++ serialize v ++ "," ++ serializeObj fs

end

end Json

namespace Bridge

/-- The fixed well-known install locations tried by `resolve_node_binary`
(bridge.rs lines 22-26), in source order. -/
def nodeCandidates : List String :=
  ["/opt/homebrew/bin/node", "/usr/local/bin/node", "/usr/bin/node"]

/-- `Bridge::resolve_node_binary` (bridge.rs lines 15-29).
`envPath` is the value of the `OPENQUERY_NODE_PATH` environment variable
(if set) and `pathExists` is `Path::exists`. -/
def resolve_node_binary (envPath : Option String) (pathExists : String → Bool) : String :=
  let fromList :=
    match nodeCandidates.find? pathExists with
    | some c => c
    | none => "node"
  match envPath with
  | some path => if pathExists path then path else fromList
  | none => fromList

/-- `Bridge::read_ready` (bridge.rs lines 67-79), applied to the first line
read from the child's stdout. `parse` is `serde_json::from_str` and
`parseErrMsg` renders the serde error that `?` propagates on parse failure.
A stream that closes before producing any line yields the empty string
(Rust's `read_line` returns `Ok(0)` at EOF leaving the buffer empty). -/
def read_ready (parse : String → Option Json) (parseErrMsg : String → String)
    (line : String) : Except String Unit :=
  match parse line with
  | none => Except.error (parseErrMsg line)
  | some msg =>
      if (msg.get "result").bind Json.as_str = some "bridge_ready" then Except.ok ()
      else Except.error ("Unexpected bridge ready message: " ++ line)

/-- `Bridge::spawn` (bridge.rs lines 33-65), reduced to its fallible steps:
`spawnErr` is the outcome of the `Command::spawn` system call (an error
message when it failed), after which the ready handshake runs on the first
line read from the child. -/
def spawn (spawnErr : Option String) (parse : String → Option Json)
    (parseErrMsg : String → String) (firstLine : String) : Except String Unit :=
  match spawnErr with
  | some e => Except.error ("Failed to spawn bridge: " ++ e)
  | none => read_ready parse parseErrMsg firstLine

/-- The response-envelope handling of `Bridge::call` (bridge.rs lines
110-121): id correlation check, then the error field, then the result
field defaulting to JSON null. -/
def handleResponse (id : String) (response : Json) : Except String Json :=
  if (response.get "id").bind Json.as_str ≠ some id then
    Except.error "Response ID mismatch"
  else
    match response.get "error" with
    | some error => Except.error ((Json.as_str error).getD "Unknown bridge error")
    | none => Except.ok (((response.get "result").map fun v => v).getD Json.null)

/-- The decode half of `Bridge::call` (bridge.rs lines 107-121): parse the
response line (`parse` is `serde_json::from_str`, `parseErrMsg` renders the
serde error), then handle the envelope. -/
def callDecode (parse : String → Option Json) (parseErrMsg : String → String)
    (id responseLine : String) : Except String Json :=
  match parse responseLine with
  | none =>
      Except.error ("Failed to parse bridge response: " ++ parseErrMsg responseLine
        ++ ". Raw: " ++ responseLine)
  | some response => handleResponse id response

/-- The request envelope built by `Bridge::call` (bridge.rs lines 84-88):
`serde_json::json!` with keys id, method, params (`serde_json::Map` is a
`BTreeMap`, and these keys are already in sorted order). -/
def requestEnvelope (id method : String) (params : Json) : Json :=
  Json.obj [("id", Json.str id), ("method", Json.str method), ("params", params)]

end Bridge

/-- One operation of `Bridge::call` on the child's stdio streams. -/
inductive StreamEvent where
  | writeStdin (bytes : String)
  | flushStdin
  | readLine
deriving DecidableEq

namespace Bridge

/-- The sequence of stream operations `Bridge::call` performs inside the
locked region (bridge.rs lines 90-105): write the serialized request plus
a newline, flush stdin, then read one line from stdout. -/
def callRequestTrace (id method : String) (params : Json) : List StreamEvent :=
  [StreamEvent.writeStdin (Json.serialize (requestEnvelope id method params) ++ "\n"),
   StreamEvent.flushStdin,
   StreamEvent.readLine]

end Bridge

/-- The outcomes of the `keyring` crate's operations (`Entry::new`,
`get_password`, `set_password`, `delete_credential`): `NoEntry` is
distinguished from every other error by keychain.rs. -/
inductive KeyringError where
  | noEntry
  | other (msg : String)
deriving DecidableEq

/-- The `Display` rendering of a `keyring::Error`, as `e.to_string()` /
`e.into()` produce in keychain.rs. -/
def KeyringError.message : KeyringError → String
  | noEntry => "No matching entry found in secure storage"
  | other msg => msg

namespace keychain

/-- `keychain::set_password` (keychain.rs lines 9-13). `entry` is the
outcome of `keyring::Entry::new` and `setRes` that of
`entry.set_password`; both propagate via `?`. -/
def set_password (entry : Except KeyringError Unit) (setRes : Except KeyringError Unit) :
    Except String Unit :=
  match entry with
  | Except.error e => Except.error e.message
  | Except.ok _ =>
      match setRes with
      | Except.error e => Except.error e.message
      | Except.ok _ => Except.ok ()

/-- `keychain::get_password` (keychain.rs lines 15-22). `entry` is the
outcome of `keyring::Entry::new` and `pwRes` that of `entry.get_password`;
`NoEntry` is mapped to a successful `None`. -/
def get_password (entry : Except KeyringError Unit) (pwRes : Except KeyringError String) :
    Except String (Option String) :=
  match entry with
  | Except.error e => Except.error e.message
  | Except.ok _ =>
      match pwRes with
      | Except.ok pw => Except.ok (some pw)
      | Except.error KeyringError.noEntry => Except.ok none
      | Except.error e => Except.error e.message

/-- `keychain::delete_password` (keychain.rs lines 24-31). `delRes` is the
outcome of `entry.delete_credential`; `NoEntry` means the entry was
already gone and is mapped to success. -/
def delete_password (entry : Except KeyringError Unit) (delRes : Except KeyringError Unit) :
    Except String Unit :=
  match entry with
  | Except.error e => Except.error e.message
  | Except.ok _ =>
      match delRes with
      | Except.ok _ => Except.ok ()
      | Except.error KeyringError.noEntry => Except.ok ()
      | Except.error e => Except.error e.message

end keychain

namespace Host

/-- `call_bridge_sync` (main.rs lines 19-23): fails with "Bridge not
started" when the managed bridge is absent, otherwise delegates to
`Bridge::call`, here abstracted as the function `bridgeCall` from method
and params to the call's outcome. -/
def call_bridge_sync (bridge : Option (String → Json → Except String Json))
    (method : String) (params : Json) : Except String Json :=
  match bridge with
  | none => Except.error "Bridge not started"
  | some bridgeCall => bridgeCall method params

/-- The `profiles_remove` Tauri command (main.rs lines 35-41):
`let _ = keychain::delete_password(&name);` discards the keychain outcome,
then the bridge call "profiles.remove" is issued with the name as its
single parameter. -/
def profiles_remove (keychainDelete : Except String Unit)
    (bridge : Option (String → Json → Except String Json)) (name : String) :
    Except String Json :=
  let _ := keychainDelete
  call_bridge_sync bridge "profiles.remove"
    (Json.obj [("name", Json.str name)])

end Host

/-! ### The serialized request is a single line

`serde_json::to_string` never emits a raw newline (newlines inside strings
are escaped), so the request written by `Bridge::call` is exactly one
newline-terminated line. -/

theorem no_newline_append {a b : String} (ha : '\n' ∉ a.data) (hb : '\n' ∉ b.data) :
    '\n' ∉ (a ++ b).data := by
  simp only [String.data_append, List.mem_append, not_or]
  exact ⟨ha, hb⟩

theorem digitChar_ne_newline (d : Nat) : Nat.digitChar d ≠ '\n' := by
  rcases Nat.lt_or_ge d 16 with h | h
  · interval_cases d <;> decide
  · have h0 : d ≠ 0 := by omega
    have h1 : d ≠ 1 := by omega
    have h2 : d ≠ 2 := by omega
    have h3 : d ≠ 3 := by omega
    have h4 : d ≠ 4 := by omega
    have h5 : d ≠ 5 := by omega
    have h6 : d ≠ 6 := by omega
    have h7 : d ≠ 7 := by omega
    have h8 : d ≠ 8 := by omega
    have h9 : d ≠ 9 := by omega
    have ha : d ≠ 10 := by omega
    have hb : d ≠ 11 := by omega
    have hc : d ≠ 12 := by omega
    have hd' : d ≠ 13 := by omega
    have he : d ≠ 14 := by omega
    have hf : d ≠ 15 := by omega
    simp [Nat.digitChar, h0, h1, h2, h3, h4, h5, h6, h7, h8, h9, ha, hb, hc, hd', he, hf]

theorem toDigitsCore_chars (b : Nat) :
    ∀ (f n : Nat) (acc : List Char) (c : Char), c ∈ Nat.toDigitsCore b f n acc →
      c ∈ acc ∨ ∃ d, c = Nat.digitChar d := by
  intro f
  induction f with
  | zero => intro n acc c hc; exact Or.inl hc
  | succ f ih =>
      intro n acc c hc
      simp only [Nat.toDigitsCore] at hc
      split at hc
      · rcases List.mem_cons.mp hc with hd | htl
        · exact Or.inr ⟨n % b, hd⟩
        · exact Or.inl htl
      · rcases ih (n / b) (Nat.digitChar (n % b) :: acc) c hc with hin | hdig
        · rcases List.mem_cons.mp hin with hd | htl
          · exact Or.inr ⟨n % b, hd⟩
          · exact Or.inl htl
        · exact Or.inr hdig

theorem natRepr_no_newline (n : Nat) : '\n' ∉ (Nat.repr n).data := by
  intro h
  have h' : '\n' ∈ Nat.toDigitsCore 10 (n + 1) n [] := h
  rcases toDigitsCore_chars 10 (n + 1) n [] '\n' h' with hin | ⟨d, hd⟩
  · exact absurd hin (List.not_mem_nil _)
  · exact digitChar_ne_newline d hd.symm

theorem intRepr_no_newline (n : Int) : '\n' ∉ (Int.repr n).data := by
  cases n with
  | ofNat m => exact natRepr_no_newline m
  | negSucc m =>
      have hdash : '\n' ∉ ("-" : String).data := by decide
      exact no_newline_append hdash (natRepr_no_newline (m + 1))

theorem escapeChar_no_newline (c : Char) : '\n' ∉ (Json.escapeChar c).data := by
  unfold Json.escapeChar
  split
  · decide
  split
  · decide
  split
  · decide
  split
  · decide
  split
  · decide
  split
  · decide
  split
  · decide
  split
  · intro h
    rcases List.mem_append.mp h with hin | hdig
    · exact absurd hin (by decide)
    · rcases List.mem_cons.mp hdig with h1 | h2
      · exact digitChar_ne_newline _ h1.symm
      · rcases List.mem_cons.mp h2 with h3 | h4
        · exact digitChar_ne_newline _ h3.symm
        · exact absurd h4 (List.not_mem_nil _)
  · rename_i hq hb hbs ht hn hf hr hctl
    intro h
    rcases List.mem_cons.mp h with h1 | h2
    · exact hn (by simpa using h1.symm)
    · exact absurd h2 (List.not_mem_nil _)

theorem escapeString_no_newline (s : String) : '\n' ∉ (Json.escapeString s).data := by
  unfold Json.escapeString
  induction s.data with
  | nil => decide
  | cons c cs ih => exact no_newline_append (escapeChar_no_newline c) ih

mutual

theorem serialize_no_newline : (j : Json) → '\n' ∉ (Json.serialize j).data
  | Json.null => by simp only [Json.serialize]; decide
  | Json.bool true => by simp only [Json.serialize]; decide
  | Json.bool false => by simp only [Json.serialize]; decide
  | Json.num n => by simp only [Json.serialize]; exact intRepr_no_newline n
  | Json.str s => by
      simp only [Json.serialize]
      exact no_newline_append
        (no_newline_append (by decide) (escapeString_no_newline s)) (by decide)
  | Json.arr elems => by
      simp only [Json.serialize]
      exact no_newline_append
        (no_newline_append (by decide) (serializeArr_no_newline elems)) (by decide)
  | Json.obj fields => by
      simp only [Json.serialize]
      exact no_newline_append
        (no_newline_append (by decide) (serializeObj_no_newline fields)) (by decide)

theorem serializeArr_no_newline : (l : List Json) → '\n' ∉ (Json.serializeArr l).data
  | [] => by simp only [Json.serializeArr]; decide
  | [v] => by simp only [Json.serializeArr]; exact serialize_no_newline v
  | v :: w :: vs => by
      simp only [Json.serializeArr]
      exact no_newline_append
        (no_newline_append (serialize_no_newline v) (by decide))
        (serializeArr_no_newline (w :: vs))

theorem serializeObj_no_newline : (l : List (String × Json)) → '\n' ∉ (Json.serializeObj l).data
  | [] => by simp only [Json.serializeObj]; decide
  | [(k, v)] => by
      simp only [Json.serializeObj]
      exact no_newline_append
        (no_newline_append
          (no_newline_append (by decide) (escapeString_no_newline k)) (by decide))
        (serialize_no_newline v)
  | (k, v) :: f :: fs => by
      simp only [Json.serializeObj]
      exact no_newline_append
        (no_newline_append
          (no_newline_append
            (no_newline_append
              (no_newline_append (by decide) (escapeString_no_newline k)) (by decide))
            (serialize_no_newline v))
          (by decide))
        (serializeObj_no_newline (f :: fs))

end

/-! ### Claims about `Bridge::call`'s response handling -/

/-- Claim C1, counterexample: a response whose id matches and that contains
a result field is nevertheless rejected when it also carries an error
field, because `Bridge::call` checks the error field before returning the
result. The concrete response is
`obj [("id","a"),("result",1),("error","boom")]` against request id "a". -/
theorem call_result_with_error_field_cex :
    ((Json.obj [("id", Json.str "a"), ("result", Json.num 1), ("error", Json.str "boom")]).get
        "id").bind Json.as_str = some "a"
  ∧ (Json.obj [("id", Json.str "a"), ("result", Json.num 1), ("error", Json.str "boom")]).get
        "result" = some (Json.num 1)
  ∧ Bridge.callDecode
        (fun _ => some (Json.obj
          [("id", Json.str "a"), ("result", Json.num 1), ("error", Json.str "boom")]))
        (fun _ => "") "a" "line"
      = Except.error "boom"
  ∧ Bridge.callDecode
        (fun _ => some (Json.obj
          [("id", Json.str "a"), ("result", Json.num 1), ("error", Json.str "boom")]))
        (fun _ => "") "a" "line"
      ≠ Except.ok (Json.num 1) := by
  have heq : Bridge.callDecode
      (fun _ => some (Json.obj
        [("id", Json.str "a"), ("result", Json.num 1), ("error", Json.str "boom")]))
      (fun _ => "") "a" "line" = Except.error "boom" := rfl
  refine ⟨rfl, rfl, heq, ?_⟩
  rw [heq]
  intro hcontra
  exact Except.noConfusion hcontra

/-- Claim C1, amended: for every method and params, if call receives a
response line that parses as a JSON envelope whose id field (as a string)
equals the request id, that contains a result field, and that contains no
error field, then call returns exactly that result value, unmodified. -/
theorem call_matching_id_result_returned
    (parse : String → Option Json) (parseErrMsg : String → String)
    (id line : String) (r v : Json)
    (hparse : parse line = some r)
    (hid : (r.get "id").bind Json.as_str = some id)
    (herr : r.get "error" = none)
    (hres : r.get "result" = some v) :
    Bridge.callDecode parse parseErrMsg id line = Except.ok v := by
  simp [Bridge.callDecode, Bridge.handleResponse, hparse, hid, herr, hres]

/-- Witness for the amended C1 at a concrete response. -/
theorem call_matching_id_result_returned_witness :
    Bridge.callDecode
        (fun _ => some (Json.obj [("id", Json.str "a"), ("result", Json.bool true)]))
        (fun _ => "") "a" "z"
      = Except.ok (Json.bool true) :=
  call_matching_id_result_returned
    (fun _ => some (Json.obj [("id", Json.str "a"), ("result", Json.bool true)]))
    (fun _ => "") "a" "z"
    (Json.obj [("id", Json.str "a"), ("result", Json.bool true)]) (Json.bool true)
    rfl rfl rfl rfl

/-- Claim C2, counterexample: two responses with matching id and distinct
structured (non-string) error payloads produce the identical failure
message "Unknown bridge error", so the error content is not observable in
the failure for structured payloads. -/
theorem call_structured_error_not_observable_cex :
    Bridge.callDecode
        (fun _ => some (Json.obj
          [("id", Json.str "a"), ("error", Json.obj [("code", Json.num 1)])]))
        (fun _ => "") "a" "line"
      = Except.error "Unknown bridge error"
  ∧ Bridge.callDecode
        (fun _ => some (Json.obj
          [("id", Json.str "a"), ("error", Json.obj [("code", Json.num 2)])]))
        (fun _ => "") "a" "line"
      = Except.error "Unknown bridge error"
  ∧ (Json.obj [("id", Json.str "a"), ("error", Json.obj [("code", Json.num 1)])]).get "error"
      ≠ (Json.obj [("id", Json.str "a"), ("error", Json.obj [("code", Json.num 2)])]).get
          "error" := by
  refine ⟨rfl, rfl, ?_⟩
  intro h
  have h' : some (Json.obj [("code", Json.num 1)]) = some (Json.obj [("code", Json.num 2)]) := h
  injection h' with h1
  injection h1 with h2
  injection h2 with h3 h4
  injection h3 with h5 h6
  injection h6 with h7
  exact absurd h7 (by decide)

/-- Claim C2, amended: a response with matching id and an error field
always fails; when the error is a JSON string its content is the failure
message, and otherwise the failure message is the fixed text
"Unknown bridge error". -/
theorem call_error_field_fails
    (parse : String → Option Json) (parseErrMsg : String → String)
    (id line : String) (r e : Json)
    (hparse : parse line = some r)
    (hid : (r.get "id").bind Json.as_str = some id)
    (herr : r.get "error" = some e) :
    Bridge.callDecode parse parseErrMsg id line
      = Except.error ((Json.as_str e).getD "Unknown bridge error") := by
  simp [Bridge.callDecode, Bridge.handleResponse, hparse, hid, herr]

/-- Witness for the amended C2 at a concrete string-error response. -/
theorem call_error_field_fails_witness :
    Bridge.callDecode
        (fun _ => some (Json.obj [("id", Json.str "a"), ("error", Json.str "boom")]))
        (fun _ => "") "a" "z"
      = Except.error "boom" :=
  call_error_field_fails
    (fun _ => some (Json.obj [("id", Json.str "a"), ("error", Json.str "boom")]))
    (fun _ => "") "a" "z"
    (Json.obj [("id", Json.str "a"), ("error", Json.str "boom")]) (Json.str "boom")
    rfl rfl rfl

/-- Claim C3: whenever the parsed response's id field is not a string equal
to the request id (absent and non-string id fields included), the call
fails with "Response ID mismatch", regardless of any result or error
field in the response. -/
theorem call_id_mismatch_fails
    (parse : String → Option Json) (parseErrMsg : String → String)
    (id line : String) (r : Json)
    (hparse : parse line = some r)
    (hid : (r.get "id").bind Json.as_str ≠ some id) :
    Bridge.callDecode parse parseErrMsg id line = Except.error "Response ID mismatch" := by
  simp [Bridge.callDecode, Bridge.handleResponse, hparse, hid]

/-- Witness for C3: a response with no id field and a result field is
rejected. -/
theorem call_id_mismatch_fails_witness :
    Bridge.callDecode (fun _ => some (Json.obj [("result", Json.num 5)]))
        (fun _ => "") "a" "z"
      = Except.error "Response ID mismatch" :=
  call_id_mismatch_fails (fun _ => some (Json.obj [("result", Json.num 5)]))
    (fun _ => "") "a" "z" (Json.obj [("result", Json.num 5)]) rfl (by decide)

/-- Claim C4: a response line that does not parse as JSON makes the call
fail, and the failure message carries the raw line (as a suffix of the
diagnostic text). -/
theorem call_unparsable_line_fails
    (parse : String → Option Json) (parseErrMsg : String → String)
    (id line : String)
    (hparse : parse line = none) :
    Bridge.callDecode parse parseErrMsg id line
        = Except.error ("Failed to parse bridge response: " ++ parseErrMsg line
            ++ ". Raw: " ++ line)
  ∧ ∃ diag, Bridge.callDecode parse parseErrMsg id line = Except.error (diag ++ line) := by
  constructor
  · simp [Bridge.callDecode, hparse]
  · exact ⟨"Failed to parse bridge response: " ++ parseErrMsg line ++ ". Raw: ",
      by simp [Bridge.callDecode, hparse]⟩

/-- Witness for C4 at a concrete unparsable line. -/
theorem call_unparsable_line_fails_witness :
    Bridge.callDecode (fun _ => none) (fun _ => "expected value at line 1")
        "a" "garbage"
        = Except.error ("Failed to parse bridge response: expected value at line 1"
            ++ ". Raw: " ++ "garbage")
  ∧ ∃ diag, Bridge.callDecode (fun _ => none) (fun _ => "expected value at line 1")
        "a" "garbage" = Except.error (diag ++ "garbage") :=
  call_unparsable_line_fails (fun _ => none) (fun _ => "expected value at line 1")
    "a" "garbage" rfl

/-- Claim C5: a response with matching id, no error field and no result
field makes the call succeed with JSON null. -/
theorem call_absent_result_returns_null
    (parse : String → Option Json) (parseErrMsg : String → String)
    (id line : String) (r : Json)
    (hparse : parse line = some r)
    (hid : (r.get "id").bind Json.as_str = some id)
    (herr : r.get "error" = none)
    (hres : r.get "result" = none) :
    Bridge.callDecode parse parseErrMsg id line = Except.ok Json.null := by
  simp [Bridge.callDecode, Bridge.handleResponse, hparse, hid, herr, hres]

/-- Witness for C5 at a concrete id-only response. -/
theorem call_absent_result_returns_null_witness :
    Bridge.callDecode (fun _ => some (Json.obj [("id", Json.str "a")]))
        (fun _ => "") "a" "z"
      = Except.ok Json.null :=
  call_absent_result_returns_null (fun _ => some (Json.obj [("id", Json.str "a")]))
    (fun _ => "") "a" "z" (Json.obj [("id", Json.str "a")]) rfl rfl rfl rfl

/-! ### Claims about the lifecycle manager, the keychain and the host -/

/-- Claim C6: binary resolution is ordered with first match winning: the
environment override is returned only if it exists on disk; otherwise the
first existing path of the fixed list (in its listed order); otherwise the
bare command name "node". -/
theorem resolve_node_binary_first_match (envPath : Option String)
    (pathExists : String → Bool) :
    (∀ p, envPath = some p → pathExists p = true →
        Bridge.resolve_node_binary envPath pathExists = p)
  ∧ ((envPath = none ∨ ∃ p, envPath = some p ∧ pathExists p = false) →
        ((pathExists "/opt/homebrew/bin/node" = true →
            Bridge.resolve_node_binary envPath pathExists = "/opt/homebrew/bin/node")
       ∧ (pathExists "/opt/homebrew/bin/node" = false →
            pathExists "/usr/local/bin/node" = true →
            Bridge.resolve_node_binary envPath pathExists = "/usr/local/bin/node")
       ∧ (pathExists "/opt/homebrew/bin/node" = false →
            pathExists "/usr/local/bin/node" = false →
            pathExists "/usr/bin/node" = true →
            Bridge.resolve_node_binary envPath pathExists = "/usr/bin/node")
       ∧ (pathExists "/opt/homebrew/bin/node" = false →
            pathExists "/usr/local/bin/node" = false →
            pathExists "/usr/bin/node" = false →
            Bridge.resolve_node_binary envPath pathExists = "node"))) := by
  constructor
  · intro p hp hex
    subst hp
    simp [Bridge.resolve_node_binary, hex]
  · intro hfall
    rcases hfall with henv | ⟨p, henv, hpf⟩ <;> subst henv <;>
      refine ⟨fun h1 => ?_, fun h1 h2 => ?_, fun h1 h2 h3 => ?_, fun h1 h2 h3 => ?_⟩ <;>
      simp [Bridge.resolve_node_binary, Bridge.nodeCandidates, List.find?, *]

/-- Witness for C6: an environment override that does not exist on disk
falls through to the third well-known path. -/
theorem resolve_node_binary_first_match_witness :
    Bridge.resolve_node_binary (some "/missing/node") (fun s => s == "/usr/bin/node")
      = "/usr/bin/node" :=
  ((resolve_node_binary_first_match (some "/missing/node")
        (fun s => s == "/usr/bin/node")).2
      (Or.inr ⟨"/missing/node", rfl, by decide⟩)).2.2.1 (by decide) (by decide) (by decide)

/-- Claim C7: spawn succeeds exactly when the spawn system call succeeded
and the first line read from the child parses as JSON whose result field
is the string "bridge_ready"; in particular a stream that closes before a
line is produced (read_line yields the empty string, which no JSON parse
accepts) makes spawn fail. -/
theorem spawn_requires_ready_sentinel (spawnErr : Option String)
    (parse : String → Option Json) (parseErrMsg : String → String) (firstLine : String) :
    (Bridge.spawn spawnErr parse parseErrMsg firstLine = Except.ok () ↔
      spawnErr = none ∧ ∃ v, parse firstLine = some v ∧
        (v.get "result").bind Json.as_str = some "bridge_ready")
  ∧ (parse "" = none → Bridge.spawn spawnErr parse parseErrMsg "" ≠ Except.ok ()) := by
  constructor
  · constructor
    · intro h
      cases spawnErr with
      | some e => simp [Bridge.spawn] at h
      | none =>
          refine ⟨rfl, ?_⟩
          cases hp : parse firstLine with
          | none => simp [Bridge.spawn, Bridge.read_ready, hp] at h
          | some v =>
              by_cases hres : (v.get "result").bind Json.as_str = some "bridge_ready"
              · exact ⟨v, rfl, hres⟩
              · simp [Bridge.spawn, Bridge.read_ready, hp, hres] at h
    · rintro ⟨rfl, v, hp, hres⟩
      simp [Bridge.spawn, Bridge.read_ready, hp, hres]
  · intro hempty hok
    cases spawnErr with
    | some e => simp [Bridge.spawn] at hok
    | none => simp [Bridge.spawn, Bridge.read_ready, hempty] at hok

/-- Witness for C7: a parse that accepts exactly the ready line makes
spawn succeed on it, and spawn fails on the empty line left by EOF. -/
theorem spawn_requires_ready_sentinel_witness :
    Bridge.spawn none
        (fun s => if s = "ready" then some (Json.obj [("result", Json.str "bridge_ready")])
          else none)
        (fun _ => "") "ready"
      = Except.ok ()
  ∧ Bridge.spawn none
        (fun s => if s = "ready" then some (Json.obj [("result", Json.str "bridge_ready")])
          else none)
        (fun _ => "") ""
      ≠ Except.ok () :=
  ⟨((spawn_requires_ready_sentinel none
        (fun s => if s = "ready" then some (Json.obj [("result", Json.str "bridge_ready")])
          else none)
        (fun _ => "") "ready").1).mpr
      ⟨rfl, Json.obj [("result", Json.str "bridge_ready")], rfl, rfl⟩,
    (spawn_requires_ready_sentinel none
        (fun s => if s = "ready" then some (Json.obj [("result", Json.str "bridge_ready")])
          else none)
        (fun _ => "") "").2 rfl⟩

/-- Claim C8: with no stored credential entry (the keyring reports
NoEntry), get_password succeeds with an absent value and delete_password
succeeds; any other keyring failure is surfaced as an error by both. -/
theorem keychain_missing_entry_behavior (m : String) :
    keychain.get_password (Except.ok ()) (Except.error KeyringError.noEntry)
        = Except.ok none
  ∧ keychain.delete_password (Except.ok ()) (Except.error KeyringError.noEntry)
        = Except.ok ()
  ∧ keychain.get_password (Except.ok ()) (Except.error (KeyringError.other m))
        = Except.error m
  ∧ keychain.delete_password (Except.ok ()) (Except.error (KeyringError.other m))
        = Except.error m :=
  ⟨rfl, rfl, rfl, rfl⟩

/-- Claim C9: inside the locked region, call writes exactly one line — the
serialization of the envelope with exactly the fields id, method, params,
terminated by a single newline — then flushes, and only then reads the
response line. -/
theorem call_writes_single_request_line (id method : String) (params : Json) :
    ∃ line,
      Bridge.callRequestTrace id method params
          = [StreamEvent.writeStdin line, StreamEvent.flushStdin, StreamEvent.readLine]
        ∧ line = Json.serialize (Bridge.requestEnvelope id method params) ++ "\n"
        ∧ Bridge.requestEnvelope id method params
            = Json.obj [("id", Json.str id), ("method", Json.str method), ("params", params)]
        ∧ line.data.count '\n' = 1 := by
  refine ⟨_, rfl, rfl, rfl, ?_⟩
  have hnl := serialize_no_newline (Bridge.requestEnvelope id method params)
  rw [String.data_append, List.count_append, List.count_eq_zero_of_not_mem hnl]
  decide

/-- Claim C10: the host command profiles_remove discards the keychain
deletion outcome — its result is determined solely by the
"profiles.remove" bridge call on the given name. -/
theorem profiles_remove_ignores_keychain_failure
    (del₁ del₂ : Except String Unit)
    (bridge : Option (String → Json → Except String Json)) (name : String) :
    Host.profiles_remove del₁ bridge name = Host.profiles_remove del₂ bridge name
  ∧ Host.profiles_remove del₁ bridge name
      = Host.call_bridge_sync bridge "profiles.remove"
          (Json.obj [("name", Json.str name)]) :=
  ⟨rfl, rfl⟩
